import Mathlib

/-!
Verification development for the ML prediction service in `python/main.py`.

The service is a FastAPI application exposing `GET /`, `GET /health` and
`POST /predict`.  Floating-point numbers are modelled as rationals (`ℚ`),
Python exceptions as an explicit error type, and the wall clock as an
explicit `Datetime` argument threaded into each handler.
-/

/-- Python exceptions that can arise in the `/predict` handler:
`ValueError` raised by `SimpleModel.predict` and `HTTPException`
raised by the handler itself.  Both derive from Python's `Exception`. -/
inductive PyErr where
  | valueError (msg : String)
  | httpException (status : Nat) (detail : String)
deriving DecidableEq, Repr

deriving instance DecidableEq for Except

/-- Python `str(e)` for the exceptions above: a `ValueError` prints its
message, and starlette's `HTTPException.__str__` prints
`f"{self.status_code}: {self.detail}"`. -/
def PyErr.str : PyErr → String
  | .valueError m => m
  | .httpException s d => toString s ++ ": " ++ d

/-- `np.dot` on two equal-length 1-D vectors: the sum of elementwise
products (`main.py` line 32). -/
def dot (xs ys : List ℚ) : ℚ :=
  (List.zipWith (fun a b => a * b) xs ys).sum

/-- The confidence formula of `main.py` line 33:
`confidence = min(0.95, abs(prediction) / 10)`. -/
def confidenceOf (p : ℚ) : ℚ :=
  min (0.95 : ℚ) (|p| / 10)

/-- The model object of `main.py` lines 23-34.  Its only state is
`self.weights`; in the running process this is `np.random.randn(10)`,
a vector of length 10 fixed at startup. -/
structure SimpleModel where
  weights : List ℚ
deriving DecidableEq, Repr

/-- `SimpleModel.predict` (`main.py` lines 28-34):
raises `ValueError("Feature dimension mismatch")` when
`len(features) != len(self.weights)`, otherwise returns
`(np.dot(features, self.weights), min(0.95, abs(prediction) / 10))`. -/
def SimpleModel.predict (m : SimpleModel) (features : List ℚ) :
    Except PyErr (ℚ × ℚ) :=
  if features.length ≠ m.weights.length then
    Except.error (PyErr.valueError "Feature dimension mismatch")
  else
    let prediction := dot features m.weights
    Except.ok (prediction, confidenceOf prediction)

/-- `SimpleModel.predict` with the object state threaded explicitly:
the Python method body never assigns to `self`, so the resulting state
is the receiver itself. -/
def SimpleModel.predictS (m : SimpleModel) (features : List ℚ) :
    Except PyErr (ℚ × ℚ) × SimpleModel :=
  (m.predict features, m)

/-- The body of a `POST /predict` request (`main.py` lines 13-15):
`features: list[float]` and `model_name: str = "linear"`. -/
structure PredictionRequest where
  features : List ℚ
  model_name : String := "linear"
deriving DecidableEq, Repr

/-- The body of a successful `POST /predict` response
(`main.py` lines 17-20). -/
structure PredictionResponse where
  prediction : ℚ
  confidence : ℚ
  timestamp : String
deriving DecidableEq, Repr

/-- The HTTP outcome of a `/predict` call: either a success response with
a status code and a `PredictionResponse` body, or an error response with
a status code and a `detail` string (FastAPI's rendering of an uncaught
`HTTPException`). -/
inductive HttpResult where
  | success (status : Nat) (body : PredictionResponse)
  | failure (status : Nat) (detail : String)
deriving DecidableEq, Repr

/-- The HTTP status code of a `/predict` outcome. -/
def HttpResult.status : HttpResult → Nat
  | .success s _ => s
  | .failure s _ => s

/-- A wall-clock instant as produced by Python's `datetime.now()`. -/
structure Datetime where
  year : Nat
  month : Nat
  day : Nat
  hour : Nat
  minute : Nat
  second : Nat
  microsecond : Nat
deriving DecidableEq, Repr

/-- The field ranges Python's `datetime` guarantees. -/
def Datetime.valid (d : Datetime) : Prop :=
  1 ≤ d.year ∧ d.year ≤ 9999 ∧ 1 ≤ d.month ∧ d.month ≤ 12 ∧
  1 ≤ d.day ∧ d.day ≤ 31 ∧ d.hour ≤ 23 ∧ d.minute ≤ 59 ∧
  d.second ≤ 59 ∧ d.microsecond ≤ 999999

instance (d : Datetime) : Decidable d.valid := by
  unfold Datetime.valid
  infer_instance

/-- The decimal digit character for `n % 10`. -/
def digitChar (n : Nat) : Char :=
  Char.ofNat (48 + n % 10)

/-- `%02d` formatting (for values `< 100`). -/
def pad2 (n : Nat) : List Char :=
  [digitChar (n / 10), digitChar n]

/-- `%04d` formatting (for values `< 10000`). -/
def pad4 (n : Nat) : List Char :=
  [digitChar (n / 1000), digitChar (n / 100), digitChar (n / 10), digitChar n]

/-- `%06d` formatting (for values `< 1000000`). -/
def pad6 (n : Nat) : List Char :=
  [digitChar (n / 100000), digitChar (n / 10000), digitChar (n / 1000),
   digitChar (n / 100), digitChar (n / 10), digitChar n]

/-- Python's `datetime.isoformat()`:
`YYYY-MM-DDTHH:MM:SS` followed by `.ffffff` when the microsecond field is
nonzero (the fractional part is omitted when it is zero). -/
def Datetime.isoformat (d : Datetime) : String :=
  String.mk (pad4 d.year ++ ['-'] ++ pad2 d.month ++ ['-'] ++ pad2 d.day ++
    ['T'] ++ pad2 d.hour ++ [':'] ++ pad2 d.minute ++ [':'] ++ pad2 d.second ++
    (if d.microsecond = 0 then [] else ['.'] ++ pad6 d.microsecond))

/-- Recogniser for the ISO-8601 timestamps produced by `isoformat`:
`YYYY-MM-DDTHH:MM:SS` optionally followed by `.ffffff`. -/
def isISO8601 (s : String) : Bool :=
  match s.toList with
  | [y1, y2, y3, y4, '-', o1, o2, '-', d1, d2, 'T',
     h1, h2, ':', n1, n2, ':', s1, s2] =>
      [y1, y2, y3, y4, o1, o2, d1, d2, h1, h2, n1, n2, s1, s2].all Char.isDigit
  | [y1, y2, y3, y4, '-', o1, o2, '-', d1, d2, 'T',
     h1, h2, ':', n1, n2, ':', s1, s2, '.', f1, f2, f3, f4, f5, f6] =>
      [y1, y2, y3, y4, o1, o2, d1, d2, h1, h2, n1, n2, s1, s2,
       f1, f2, f3, f4, f5, f6].all Char.isDigit
  | _ => false

/-- The `POST /predict` handler (`main.py` lines 53-67).  The entire body
is wrapped in `try/except Exception`, and the `except` arm re-raises every
caught exception — including the `HTTPException(400)` raised by the length
check, since `HTTPException` derives from `Exception` — as
`HTTPException(status_code=500, detail=str(e))`. -/
def predictEndpoint (m : SimpleModel) (req : PredictionRequest)
    (now : Datetime) : HttpResult :=
  let tryBody : Except PyErr PredictionResponse :=
    if req.features.length ≠ 10 then
      Except.error (PyErr.httpException 400 "Expected 10 features")
    else
      match m.predict req.features with
      | Except.error e => Except.error e
      | Except.ok (p, c) => Except.ok ⟨p, c, now.isoformat⟩
  match tryBody with
  | Except.ok resp => HttpResult.success 200 resp
  | Except.error e => HttpResult.failure 500 e.str

/-- A JSON value appearing in the `GET /` and `GET /health` bodies. -/
inductive JVal where
  | s (v : String)
  | n (v : Nat)
deriving DecidableEq, Repr

/-- The `GET /` handler (`main.py` lines 38-44): HTTP 200 with
`{"service": ..., "status": "healthy", "timestamp": now.isoformat()}`. -/
def root (now : Datetime) : Nat × List (String × JVal) :=
  (200, [("service", JVal.s "ML Prediction API"),
         ("status", JVal.s "healthy"),
         ("timestamp", JVal.s now.isoformat)])

/-- The `GET /health` handler (`main.py` lines 46-51): HTTP 200 with
`{"status": "ok", "memory_usage": <int>}`.  The integer is the byte count
reported by pandas for a throwaway dataframe; its exact value is a pandas
implementation detail, so it is a parameter here. -/
def health_check (memUsage : Nat) : Nat × List (String × JVal) :=
  (200, [("status", JVal.s "ok"),
         ("memory_usage", JVal.n memUsage)])

/-- The spec-side reading of "inner (dot) product": the sum over all index
positions of the products of the entries at that position. -/
def innerProductSpec (xs ys : List ℚ) : ℚ :=
  ((List.range xs.length).map (fun i => xs.getD i 0 * ys.getD i 0)).sum

/-- The observable part of a `/predict` outcome once the wall-clock
timestamp is removed. -/
inductive ObservedOutput where
  | success (status : Nat) (prediction : ℚ) (confidence : ℚ)
  | failure (status : Nat) (detail : String)
deriving DecidableEq, Repr

/-- Forget the timestamp field of a `/predict` outcome. -/
def HttpResult.dropTimestamp : HttpResult → ObservedOutput
  | .success s b => .success s b.prediction b.confidence
  | .failure s d => .failure s d

theorem dot_eq_innerProductSpec (xs ys : List ℚ) (h : xs.length = ys.length) :
    dot xs ys = innerProductSpec xs ys := by
  induction xs generalizing ys with
  | nil => simp [dot, innerProductSpec]
  | cons x xs ih =>
    cases ys with
    | nil => simp at h
    | cons y ys =>
      have h' : xs.length = ys.length := by simpa using h
      have ihs := ih ys h'
      simp only [dot, List.zipWith_cons_cons, List.sum_cons] at ihs ⊢
      simp only [innerProductSpec, List.length_cons, List.range_succ_eq_map,
        List.map_cons, List.map_map, List.sum_cons, Function.comp_def,
        List.getD_cons_zero, List.getD_cons_succ] at ihs ⊢
      rw [ihs]

theorem dot_replicate_zero (n : Nat) (ys : List ℚ) :
    dot (List.replicate n 0) ys = 0 := by
  induction n generalizing ys with
  | zero => simp [dot]
  | succ n ih =>
    cases ys with
    | nil => simp [dot]
    | cons y ys =>
      have ihs := ih ys
      simp only [dot, List.replicate_succ, List.zipWith_cons_cons,
        List.sum_cons, zero_mul, zero_add] at ihs ⊢
      exact ihs

theorem isDigit_digitChar (n : Nat) : (digitChar n).isDigit = true := by
  have h : n % 10 < 10 := Nat.mod_lt _ (by norm_num)
  unfold digitChar
  set r := n % 10 with hr
  interval_cases r <;> decide

theorem isISO8601_isoformat (d : Datetime) : isISO8601 d.isoformat = true := by
  unfold Datetime.isoformat
  by_cases h : d.microsecond = 0 <;>
    simp [h, pad4, pad2, pad6, isISO8601, isDigit_digitChar]

/-- Claim C1 (code bug): the spec promises HTTP 400 when the `features`
list does not have length 10, and the handler indeed raises
`HTTPException(status_code=400, detail="Expected 10 features")` — but it
does so inside its own `try`, whose `except Exception` arm catches the
`HTTPException` (a subclass of `Exception`) and re-raises it as
`HTTPException(status_code=500, detail=str(e))`.  Evaluating the handler
on a 3-element feature list yields HTTP 500 with detail
`"400: Expected 10 features"`, never HTTP 400. -/
theorem C1_validation_error_surfaces_as_500 :
    predictEndpoint ⟨[1, 1, 1, 1, 1, 1, 1, 1, 1, 1]⟩ ⟨[1, 2, 3], "linear"⟩
        ⟨2024, 1, 2, 3, 4, 5, 0⟩ =
      HttpResult.failure 500 "400: Expected 10 features" ∧
    (predictEndpoint ⟨[1, 1, 1, 1, 1, 1, 1, 1, 1, 1]⟩ ⟨[1, 2, 3], "linear"⟩
        ⟨2024, 1, 2, 3, 4, 5, 0⟩).status ≠ 400 := by
  constructor <;> decide

/-- Claim C2: for every request whose `features` list has length 10
(against the process model, whose weight vector has length 10), the
response is HTTP 200 and its `confidence` field lies in `[0, 0.95]`. -/
theorem C2_success_confidence_bounded (m : SimpleModel)
    (req : PredictionRequest) (now : Datetime)
    (hf : req.features.length = 10) (hw : m.weights.length = 10) :
    ∃ body : PredictionResponse,
      predictEndpoint m req now = HttpResult.success 200 body ∧
      0 ≤ body.confidence ∧ body.confidence ≤ 0.95 := by
  have hlen : req.features.length = m.weights.length := by rw [hf, hw]
  refine ⟨⟨dot req.features m.weights,
    confidenceOf (dot req.features m.weights), now.isoformat⟩, ?_, ?_, ?_⟩
  · simp [predictEndpoint, SimpleModel.predict, hf, hw]
  · exact le_min (by norm_num) (by positivity)
  · exact min_le_left _ _

/-- Witness for C2 at a concrete request, model and clock instant. -/
theorem C2_success_confidence_bounded_witness :
    ∃ body : PredictionResponse,
      predictEndpoint ⟨[1, 1, 1, 1, 1, 1, 1, 1, 1, 1]⟩
          ⟨[2, 2, 2, 2, 2, 2, 2, 2, 2, 2], "linear"⟩ ⟨2024, 1, 2, 3, 4, 5, 0⟩ =
        HttpResult.success 200 body ∧
      0 ≤ body.confidence ∧ body.confidence ≤ 0.95 :=
  C2_success_confidence_bounded ⟨[1, 1, 1, 1, 1, 1, 1, 1, 1, 1]⟩
    ⟨[2, 2, 2, 2, 2, 2, 2, 2, 2, 2], "linear"⟩ ⟨2024, 1, 2, 3, 4, 5, 0⟩ rfl rfl

/-- Claim C3: on a length-10 feature vector and the length-10 weight
vector, `predict` returns the inner product of features and weights as
`prediction` and `min(0.95, |prediction| / 10)` as `confidence`. -/
theorem C3_predict_formula (m : SimpleModel) (features : List ℚ)
    (hf : features.length = 10) (hw : m.weights.length = 10) :
    m.predict features =
      Except.ok (innerProductSpec features m.weights,
        min (0.95 : ℚ) (|innerProductSpec features m.weights| / 10)) := by
  have hlen : features.length = m.weights.length := by rw [hf, hw]
  simp [SimpleModel.predict, hlen, confidenceOf,
    dot_eq_innerProductSpec features m.weights hlen]

/-- Witness for C3 at a concrete feature and weight vector. -/
theorem C3_predict_formula_witness :
    SimpleModel.predict ⟨[1, 1, 1, 1, 1, 1, 1, 1, 1, 1]⟩
        [2, 2, 2, 2, 2, 2, 2, 2, 2, 2] =
      Except.ok
        (innerProductSpec [2, 2, 2, 2, 2, 2, 2, 2, 2, 2] [1, 1, 1, 1, 1, 1, 1, 1, 1, 1],
         min (0.95 : ℚ)
           (|innerProductSpec [2, 2, 2, 2, 2, 2, 2, 2, 2, 2] [1, 1, 1, 1, 1, 1, 1, 1, 1, 1]| / 10)) :=
  C3_predict_formula ⟨[1, 1, 1, 1, 1, 1, 1, 1, 1, 1]⟩
    [2, 2, 2, 2, 2, 2, 2, 2, 2, 2] rfl rfl

/-- Claim C4: for every length-10 weight vector, `predict` on the
all-zero feature vector returns prediction `0` and confidence `0`. -/
theorem C4_zero_vector (m : SimpleModel) (hw : m.weights.length = 10) :
    m.predict [0, 0, 0, 0, 0, 0, 0, 0, 0, 0] = Except.ok (0, 0) := by
  have hz : dot [0, 0, 0, 0, 0, 0, 0, 0, 0, 0] m.weights = 0 := by
    have hrep : ([0, 0, 0, 0, 0, 0, 0, 0, 0, 0] : List ℚ) = List.replicate 10 0 := rfl
    rw [hrep, dot_replicate_zero]
  norm_num [SimpleModel.predict, hw, hz, confidenceOf]

/-- Witness for C4 at a concrete weight vector. -/
theorem C4_zero_vector_witness :
    SimpleModel.predict ⟨[3, 1, 4, 1, 5, 9, 2, 6, 5, 3]⟩
      [0, 0, 0, 0, 0, 0, 0, 0, 0, 0] = Except.ok (0, 0) :=
  C4_zero_vector ⟨[3, 1, 4, 1, 5, 9, 2, 6, 5, 3]⟩ rfl

/-- Claim C5: the confidence formula is monotonically non-decreasing in
`|prediction|`, and saturates at `0.95` once `|prediction| ≥ 9.5`. -/
theorem C5_confidence_monotone_saturating :
    (∀ p1 p2 : ℚ, |p1| ≤ |p2| → confidenceOf p1 ≤ confidenceOf p2) ∧
    (∀ p : ℚ, (9.5 : ℚ) ≤ |p| → confidenceOf p = 0.95) := by
  constructor
  · intro p1 p2 h
    unfold confidenceOf
    exact min_le_min le_rfl (by linarith)
  · intro p h
    unfold confidenceOf
    rw [min_eq_left (by linarith)]

/-- Witness for C5: monotonicity at `1 ≤ 2` and saturation at `10`. -/
theorem C5_confidence_monotone_saturating_witness :
    confidenceOf 1 ≤ confidenceOf 2 ∧ confidenceOf 10 = 0.95 :=
  ⟨C5_confidence_monotone_saturating.1 1 2 (by norm_num),
   C5_confidence_monotone_saturating.2 10 (by norm_num)⟩

/-- Counterexample for Claim C6: the error raised on a dimension mismatch
is `ValueError("Feature dimension mismatch")` — a fixed message — so it
cannot carry the expected and actual lengths.  With an empty feature list,
a 1-weight model and a 2-weight model (expected lengths 1 and 2) signal
the exact same error value. -/
theorem C6_error_does_not_carry_lengths :
    SimpleModel.predict ⟨[1]⟩ [] = SimpleModel.predict ⟨[1, 2]⟩ [] ∧
    SimpleModel.predict ⟨[1]⟩ [] =
      Except.error (PyErr.valueError "Feature dimension mismatch") ∧
    (⟨[1]⟩ : SimpleModel).weights.length ≠ (⟨[1, 2]⟩ : SimpleModel).weights.length := by
  refine ⟨?_, ?_, ?_⟩ <;> decide

/-- Claim C6 as amended: `predict` signals a dimension-mismatch error —
`ValueError` with the fixed message `"Feature dimension mismatch"`, which
does not carry the expected and actual lengths — if and only if
`len(features) ≠ len(weights)`; when the lengths match it returns
normally. -/
theorem C6_amended_dimension_mismatch (m : SimpleModel) (features : List ℚ) :
    (features.length ≠ m.weights.length →
      m.predict features =
        Except.error (PyErr.valueError "Feature dimension mismatch")) ∧
    (features.length = m.weights.length →
      m.predict features =
        Except.ok (dot features m.weights, confidenceOf (dot features m.weights))) := by
  constructor
  · intro h
    simp [SimpleModel.predict, h]
  · intro h
    simp [SimpleModel.predict, h]

/-- Witness for the amended C6: a mismatching and a matching call. -/
theorem C6_amended_dimension_mismatch_witness :
    SimpleModel.predict ⟨[1, 2]⟩ [] =
      Except.error (PyErr.valueError "Feature dimension mismatch") ∧
    SimpleModel.predict ⟨[5]⟩ [7] =
      Except.ok (dot [7] [5], confidenceOf (dot [7] [5])) :=
  ⟨(C6_amended_dimension_mismatch ⟨[1, 2]⟩ []).1 (by decide),
   (C6_amended_dimension_mismatch ⟨[5]⟩ [7]).2 (by decide)⟩

/-- Counterexample for Claim C7: the response body embeds
`datetime.now().isoformat()`, so two calls with identical input made at
different clock instants return different outputs — the timestamp fields
differ.  Here the two calls are one second apart. -/
theorem C7_output_differs_across_instants :
    predictEndpoint ⟨[1, 1, 1, 1, 1, 1, 1, 1, 1, 1]⟩
        ⟨[1, 1, 1, 1, 1, 1, 1, 1, 1, 1], "linear"⟩ ⟨2024, 1, 2, 3, 4, 5, 0⟩ ≠
      predictEndpoint ⟨[1, 1, 1, 1, 1, 1, 1, 1, 1, 1]⟩
        ⟨[1, 1, 1, 1, 1, 1, 1, 1, 1, 1], "linear"⟩ ⟨2024, 1, 2, 3, 4, 6, 0⟩ := by
  intro hEq
  have hts := congrArg
    (fun r => match r with
      | HttpResult.success _ b => b.timestamp
      | HttpResult.failure _ dt => dt) hEq
  simp only [predictEndpoint, SimpleModel.predict] at hts
  norm_num at hts
  exact absurd hts (by decide)

/-- Claim C7 as amended: with the timestamp field removed, two `/predict`
calls with the same request against the same model are identical,
whatever the two clock instants are. -/
theorem C7_amended_deterministic_modulo_timestamp (m : SimpleModel)
    (req : PredictionRequest) (d1 d2 : Datetime) :
    (predictEndpoint m req d1).dropTimestamp =
      (predictEndpoint m req d2).dropTimestamp := by
  by_cases h : req.features.length = 10
  · rcases hp : m.predict req.features with e | pc
    · simp [predictEndpoint, h, hp, HttpResult.dropTimestamp]
    · obtain ⟨p, c⟩ := pc
      simp [predictEndpoint, h, hp, HttpResult.dropTimestamp]
  · simp [predictEndpoint, h, HttpResult.dropTimestamp]

/-- Claim C9: `predict` with the object state threaded explicitly leaves
the model (hence its weight vector, the only process-wide state)
unchanged, and its value depends only on the weights and the features. -/
theorem C9_predict_pure (m1 m2 : SimpleModel) (f : List ℚ)
    (h : m1.weights = m2.weights) :
    (m1.predictS f).2 = m1 ∧ (m1.predictS f).1 = (m2.predictS f).1 := by
  obtain ⟨w1⟩ := m1
  obtain ⟨w2⟩ := m2
  simp only at h
  subst h
  exact ⟨rfl, rfl⟩

/-- Witness for C9 at a concrete model and feature list. -/
theorem C9_predict_pure_witness :
    ((⟨[1, 2]⟩ : SimpleModel).predictS [3]).2 = (⟨[1, 2]⟩ : SimpleModel) ∧
    ((⟨[1, 2]⟩ : SimpleModel).predictS [3]).1 =
      ((⟨[1, 2]⟩ : SimpleModel).predictS [3]).1 :=
  C9_predict_pure ⟨[1, 2]⟩ ⟨[1, 2]⟩ [3] rfl

/-- Claim C10: the handler never reads `model_name`, so two requests with
the same `features` produce the same outcome at the same clock instant. -/
theorem C10_model_name_has_no_influence (m : SimpleModel) (d : Datetime)
    (r1 r2 : PredictionRequest) (h : r1.features = r2.features) :
    predictEndpoint m r1 d = predictEndpoint m r2 d := by
  obtain ⟨f1, n1⟩ := r1
  obtain ⟨f2, n2⟩ := r2
  simp only at h
  subst h
  rfl

/-- Witness for C10: same features, different `model_name` values. -/
theorem C10_model_name_has_no_influence_witness :
    predictEndpoint ⟨[1, 1, 1, 1, 1, 1, 1, 1, 1, 1]⟩
        ⟨[2, 2, 2, 2, 2, 2, 2, 2, 2, 2], "linear"⟩ ⟨2024, 1, 1, 0, 0, 0, 0⟩ =
      predictEndpoint ⟨[1, 1, 1, 1, 1, 1, 1, 1, 1, 1]⟩
        ⟨[2, 2, 2, 2, 2, 2, 2, 2, 2, 2], "tree"⟩ ⟨2024, 1, 1, 0, 0, 0, 0⟩ :=
  C10_model_name_has_no_influence ⟨[1, 1, 1, 1, 1, 1, 1, 1, 1, 1]⟩
    ⟨2024, 1, 1, 0, 0, 0, 0⟩ ⟨[2, 2, 2, 2, 2, 2, 2, 2, 2, 2], "linear"⟩
    ⟨[2, 2, 2, 2, 2, 2, 2, 2, 2, 2], "tree"⟩ rfl

/-- Counterexample for Claim C8: the `GET /health` body is
`{"status": "ok", "memory_usage": <int>}` — it answers HTTP 200 but
contains no timestamp field at all (shown here with the memory figure
instantiated to 132 bytes). -/
theorem C8_health_has_no_timestamp :
    (health_check 132).1 = 200 ∧
    ((health_check 132).2.map Prod.fst).contains "timestamp" = false := by
  constructor <;> decide

/-- Claim C8 as amended: `GET /` always answers HTTP 200 with a
`timestamp` field holding the valid ISO-8601 rendering of the current
instant, and `GET /health` always answers HTTP 200 — but its body has no
timestamp field. -/
theorem C8_amended_endpoints (d : Datetime) (mem : Nat) (_hd : d.valid) :
    (root d).1 = 200 ∧
    (root d).2.lookup "timestamp" = some (JVal.s d.isoformat) ∧
    isISO8601 d.isoformat = true ∧
    (health_check mem).1 = 200 := by
  refine ⟨rfl, ?_, isISO8601_isoformat d, rfl⟩
  simp [root, List.lookup]

/-- Witness for the amended C8 at a concrete instant. -/
theorem C8_amended_endpoints_witness :
    (root ⟨2024, 1, 2, 3, 4, 5, 6⟩).1 = 200 ∧
    (root ⟨2024, 1, 2, 3, 4, 5, 6⟩).2.lookup "timestamp" =
      some (JVal.s (Datetime.isoformat ⟨2024, 1, 2, 3, 4, 5, 6⟩)) ∧
    isISO8601 (Datetime.isoformat ⟨2024, 1, 2, 3, 4, 5, 6⟩) = true ∧
    (health_check 132).1 = 200 :=
  C8_amended_endpoints ⟨2024, 1, 2, 3, 4, 5, 6⟩ 132 (by decide)
